import Mathlib

/-!
Verification development for the bluez peripheral core of the bluster
repository: the `Advertisement` object (src/peripheral/bluez/advertisement.rs)
and the GATT `Application` object (src/peripheral/bluez/gatt/application.rs).

The embedding is a sequential-trace model: each operation of the Rust code is
a Lean function that returns, in source statement order, the list of
observable events it performs (stores into the shared cells, awaited remote
bus calls with their arguments and outcome, inbound-call replies), together
with its returned value.  The state after an operation is obtained by folding
the event trace over the starting state, so ordering claims (for example the
optimistic flag clear of `unregister`) are statements about trace prefixes.
Remote-call outcomes are inputs of the model (the environment chooses them),
carrying the provider error message on failure so that error propagation can
be stated as equality of messages.
-/

/-- A wire value of the bus serialization layer, as far as this code
produces them: strings, byte sequences, and variants wrapping a value. -/
inductive WireVal where
  | str : String → WireVal
  | bytes : List Nat → WireVal
  | variant : WireVal → WireVal
deriving DecidableEq, Repr

/-- `ServiceData` from advertisement.rs: a newtype over a map from service
identifier to byte payload.  The `HashMap<String, Vec<u8>>` is modelled as an
association list whose keys are unique (the HashMap invariant); `insert`
below reproduces `HashMap::insert`: replace the entry when the key is
present, append a fresh entry otherwise. -/
structure ServiceData where
  entries : List (String × List Nat)
deriving DecidableEq, Repr

/-- `ServiceData::new()`: the empty mapping. -/
def ServiceData.new : ServiceData := ⟨[]⟩

/-- Association-list insert with HashMap semantics: overwrite the entry for
the key when present, otherwise add one entry at the end. -/
def insertAssoc : List (String × List Nat) → String → List Nat → List (String × List Nat)
  | [], k, v => [(k, v)]
  | (k0, v0) :: rest, k, v =>
    if k0 = k then (k, v) :: rest else (k0, v0) :: insertAssoc rest k v

/-- `HashMap::insert` on the `ServiceData` newtype. -/
def ServiceData.insert (m : ServiceData) (k : String) (v : List Nat) : ServiceData :=
  ⟨insertAssoc m.entries k v⟩

/-- Number of entries of an association list carrying the given key. -/
def countKey (k : String) (l : List (String × α)) : Nat :=
  (l.filter fun p => decide (p.1 = k)).length

/-- First value stored under the given key, if any. -/
def lookupKey (k : String) : List (String × α) → Option α
  | [] => none
  | (k0, v0) :: rest => if k0 = k then some v0 else lookupKey k rest

/-- The wire type signature declared for `ServiceData` by
`impl dbus::arg::Arg for ServiceData` in advertisement.rs
(`dbus::Signature::from("a\x7bsv\x7d")`). -/
def serviceDataSignature : String := "a\x7bsv\x7d"

/-- `ServiceData::append_by_ref` from advertisement.rs: every entry of the
map is emitted keyed by its service identifier, with the byte payload wrapped
in a single variant (`Variant(sliced)` over the `&[u8]` slice). -/
def encodeServiceData (m : ServiceData) : List (String × WireVal) :=
  m.entries.map fun p => (p.1, WireVal.variant (WireVal.bytes p.2))

/-- True exactly on a variant wrapping a byte sequence. -/
def isVariantBytes : WireVal → Bool
  | WireVal.variant (WireVal.bytes _) => true
  | _ => false

/-- Observable events of one operation, in program order.
`awaitCall method path options err` is an awaited outbound bus call:
`options = none` when the call carries only the path,
`options = some l` when it also carries an options mapping `l`;
`err = none` on remote success, `err = some e` when the remote side failed
with message `e`.  `storeFlag`, `storeName`, `storeUuids` and
`insertServiceData` are the writes into the shared cells; `replyOk` is the
successful reply of an inbound method handler. -/
inductive Event where
  | storeFlag : Bool → Event
  | storeName : String → Event
  | storeUuids : List String → Event
  | insertServiceData : String → List Nat → Event
  | awaitCall : String → String → Option (List (String × WireVal)) → Option String → Event
  | replyOk : Event
deriving DecidableEq, Repr

/-- True exactly on flag-store events. -/
def isStoreFlag : Event → Bool
  | Event.storeFlag _ => true
  | _ => false

/-- The `Advertisement` struct of advertisement.rs: the object path computed
at construction, the `is_advertising` atomic flag, and the three shared
property cells (each `Arc<Mutex<Option<..>>>`, absent initially).  The
connection, adapter and tree handles carry no state this development needs. -/
structure Advertisement where
  object_path : String
  is_advertising : Bool
  name : Option String
  uuids : Option (List String)
  service_data : Option ServiceData
deriving DecidableEq, Repr

/-- `format!` padding for the `:04` width specifier: decimal digits padded
with leading zeros to width four. -/
def padZeros4 (n : Nat) : String :=
  let s := toString n
  if s.length < 4 then String.mk (List.replicate (4 - s.length) '0') ++ s else s

/-- The advertisement slot index: the literal `0` in
`format!("\x7b\x7d/advertisement\x7b:04\x7d", PATH_BASE, 0)`. -/
def ADVERTISEMENT_SLOT : Nat := 0

/-- The advertisement object path from `Advertisement::new`:
`PATH_BASE` followed by `/advertisement` and the zero-padded slot index. -/
def advertisementObjectPath (base : String) : String :=
  base ++ "/advertisement" ++ padZeros4 ADVERTISEMENT_SLOT

/-- The application root object path from `Application::new`: the object is
created at `PATH_BASE` itself (`factory.object_path(PATH_BASE, ..)`). -/
def applicationObjectPath (base : String) : String := base

/-- `Advertisement::new`: flag false, all three property cells absent, path
as computed by the `format!` call, for a given `PATH_BASE`. -/
def Advertisement.new (base : String) : Advertisement :=
  { object_path := advertisementObjectPath base
    is_advertising := false
    name := none
    uuids := none
    service_data := none }

/-- Effect of one event on the advertisement state.  `storeName` and
`storeUuids` are `Option::replace` on the cells; `insertServiceData` is
`get_or_insert(ServiceData::new())` followed by `HashMap::insert`; awaited
calls and replies do not touch local state. -/
def applyEvent (a : Advertisement) : Event → Advertisement
  | Event.storeFlag b => { a with is_advertising := b }
  | Event.storeName n => { a with name := some n }
  | Event.storeUuids u => { a with uuids := some u }
  | Event.insertServiceData k v =>
      { a with
        service_data := some ((a.service_data.getD ServiceData.new).insert k v) }
  | Event.awaitCall _ _ _ _ => a
  | Event.replyOk => a

/-- State after running a trace from a starting state. -/
def applyTrace (a : Advertisement) (tr : List Event) : Advertisement :=
  tr.foldl applyEvent a

/-- `Advertisement::add_name`: one store replacing the name cell. -/
def Advertisement.add_name (a : Advertisement) (n : String) :
    List Event × Advertisement :=
  let tr := [Event.storeName n]
  (tr, applyTrace a tr)

/-- `Advertisement::add_uuids`: one store replacing the uuids cell. -/
def Advertisement.add_uuids (a : Advertisement) (u : List String) :
    List Event × Advertisement :=
  let tr := [Event.storeUuids u]
  (tr, applyTrace a tr)

/-- `Advertisement::add_service_data`: insert into the service-data map,
creating the empty map first when the cell is absent. -/
def Advertisement.add_service_data (a : Advertisement) (k : String) (v : List Nat) :
    List Event × Advertisement :=
  let tr := [Event.insertServiceData k v]
  (tr, applyTrace a tr)

/-- `Advertisement::register`: await `RegisterAdvertisement` carrying the
object path and an empty options mapping; on remote failure the `?` operator
returns the error at once (no store happens); on success store `true` into
the flag and return ok.  `remote = some e` means the remote call failed with
message `e`. -/
def Advertisement.register (a : Advertisement) (remote : Option String) :
    List Event × Except String Unit × Advertisement :=
  match remote with
  | some e =>
      let tr := [Event.awaitCall "RegisterAdvertisement" a.object_path (some []) (some e)]
      (tr, Except.error e, applyTrace a tr)
  | none =>
      let tr := [Event.awaitCall "RegisterAdvertisement" a.object_path (some []) none,
                 Event.storeFlag true]
      (tr, Except.ok (), applyTrace a tr)

/-- `Advertisement::unregister`: build the `UnregisterAdvertisement` call
(carrying only the path), store `false` into the flag, and only then await
the call; its error, if any, is returned to the caller after the store. -/
def Advertisement.unregister (a : Advertisement) (remote : Option String) :
    List Event × Except String Unit × Advertisement :=
  let tr := [Event.storeFlag false,
             Event.awaitCall "UnregisterAdvertisement" a.object_path none remote]
  (tr,
   match remote with
   | none => Except.ok ()
   | some e => Except.error e,
   applyTrace a tr)

/-- The inbound `Release` handler registered in `Advertisement::new`: store
`false` into the flag and reply success immediately. -/
def Advertisement.release (a : Advertisement) : List Event × Advertisement :=
  let tr := [Event.storeFlag false, Event.replyOk]
  (tr, applyTrace a tr)

/-- `Advertisement::is_advertising`: a pure load of the flag, no events. -/
def Advertisement.is_advertising_call (a : Advertisement) : List Event × Bool :=
  ([], a.is_advertising)

/-- The `Type` property getter: the constant string. -/
def getType (_ : Advertisement) : Except String String :=
  Except.ok "peripheral"

/-- The `LocalName` property getter: the stored name or the empty string. -/
def getLocalName (a : Advertisement) : Except String String :=
  Except.ok (a.name.getD "")

/-- The `ServiceUUIDs` property getter: the stored list or the empty list. -/
def getServiceUUIDs (a : Advertisement) : Except String (List String) :=
  Except.ok (a.uuids.getD [])

/-- The `ServiceData` property getter: the stored map or the empty map. -/
def getServiceData (a : Advertisement) : Except String ServiceData :=
  Except.ok (a.service_data.getD ServiceData.new)

/-- An inbound method declaration: its name and its input and output
argument signatures. -/
structure MethodSig where
  methodName : String
  inArgs : List String
  outArgs : List String
deriving DecidableEq, Repr

/-- The methods registered on the advertisement interface: exactly one,
`method_with_cr_async("Release", (), (), ..)` — no inputs, no outputs. -/
def advertisementMethods : List MethodSig := [⟨"Release", [], []⟩]

/-- The properties registered on the advertisement interface. -/
def advertisementProperties : List String :=
  ["Type", "LocalName", "ServiceUUIDs", "ServiceData"]

/-- An opaque raw bus reply message, as returned by the GATT manager. -/
structure Message where
  serial : Nat
deriving DecidableEq, Repr

/-- On-failure error message of a remote outcome, if any. -/
def errOf : Except String α → Option String
  | Except.ok _ => none
  | Except.error e => some e

/-- The `Application` struct of gatt/application.rs: the root object path and
the adapter path; it has no mutable local state at all (no activity flag). -/
structure Application where
  object_path : String
  adapter : String
deriving DecidableEq, Repr

/-- `Application::new`: the root object is registered at the bare base path. -/
def Application.new (base : String) (adapter : String) : Application :=
  { object_path := applicationObjectPath base, adapter := adapter }

/-- `Application::register`: await `RegisterApplication` carrying the root
path and an empty options mapping, and return the raw reply message (or the
remote error) unchanged; the state is returned untouched. -/
def Application.register (app : Application) (remote : Except String Message) :
    List Event × Except String Message × Application :=
  ([Event.awaitCall "RegisterApplication" app.object_path (some []) (errOf remote)],
   remote, app)

/-- `Application::unregister`: await `UnregisterApplication` carrying only the
root path, discard the reply on success (`.map(|_| ())`); the state is
returned untouched. -/
def Application.unregister (app : Application) (remote : Except String Message) :
    List Event × Except String Unit × Application :=
  ([Event.awaitCall "UnregisterApplication" app.object_path none (errOf remote)],
   remote.map (fun _ => ()), app)

/-- A sample advertisement used by witnesses. -/
def advSample : Advertisement := Advertisement.new "/org/bluez/example"

/-- A sample application used by witnesses. -/
def appSample : Application := Application.new "/org/bluez/example" "/org/bluez/hci0"

/-- A sample service-data map used by witnesses. -/
def sdSample : ServiceData := ⟨[("180d", [1, 2])]⟩

example : padZeros4 0 = "0000" := by decide
example : (advSample.register none).2.2.is_advertising = true := by decide
example : (advSample.unregister (some "boom")).2.1 = Except.error "boom" := rfl
example :
    lookupKey "180d"
      (((advSample.add_service_data "180d" [1]).2.add_service_data "180d" [2, 3]).2.service_data.getD
          ServiceData.new).entries = some [2, 3] := rfl

/-- Appending strings is associative (proved through the underlying
character lists). -/
theorem stringAppendAssoc (s t u : String) : s ++ t ++ u = s ++ (t ++ u) := by
  simp [String.congr_append, List.append_assoc]

/-- Unfolding `countKey` over a cons cell. -/
theorem countKey_cons (k k0 : String) (v0 : α) (rest : List (String × α)) :
    countKey k ((k0, v0) :: rest) = (if k0 = k then 1 else 0) + countKey k rest := by
  by_cases h : k0 = k
  · simp [countKey, List.filter_cons, h]
    omega
  · simp [countKey, List.filter_cons, h]

/-- `insertAssoc` at a key occurring at most once leaves exactly one entry
for that key. -/
theorem countKey_insertAssoc (k : String) (v : List Nat) :
    ∀ l : List (String × List Nat), countKey k l ≤ 1 →
      countKey k (insertAssoc l k v) = 1
  | [] => by
    intro _
    simp [insertAssoc, countKey]
  | (k0, v0) :: rest => by
    intro h
    rw [countKey_cons] at h
    by_cases hk : k0 = k
    · rw [if_pos hk] at h
      have h0 : countKey k rest = 0 := by omega
      simp [insertAssoc, hk, countKey_cons, h0]
    · rw [if_neg hk] at h
      have h1 : countKey k rest ≤ 1 := by omega
      simp [insertAssoc, hk, countKey_cons, countKey_insertAssoc k v rest h1]

/-- `insertAssoc` makes the inserted value the one found for its key. -/
theorem lookupKey_insertAssoc (k : String) (v : List Nat) :
    ∀ l : List (String × List Nat), lookupKey k (insertAssoc l k v) = some v
  | [] => by simp [insertAssoc, lookupKey]
  | (k0, v0) :: rest => by
    by_cases hk : k0 = k
    · simp [insertAssoc, hk, lookupKey]
    · simp [insertAssoc, hk, lookupKey, lookupKey_insertAssoc k v rest]

/-- Mapping a function over the values of an association list preserves the
per-key entry count. -/
theorem countKey_map_snd (k : String) (f : α → β) :
    ∀ l : List (String × α),
      countKey k (l.map fun p => (p.1, f p.2)) = countKey k l
  | [] => rfl
  | (k0, v0) :: rest => by
    by_cases h : k0 = k <;>
      simp [List.map_cons, countKey_cons, h, countKey_map_snd k f rest]

/-- Mapping a function over the values of an association list commutes with
key lookup. -/
theorem lookupKey_map_snd (k : String) (f : α → β) :
    ∀ l : List (String × α),
      lookupKey k (l.map fun p => (p.1, f p.2)) = (lookupKey k l).map f
  | [] => rfl
  | (k0, v0) :: rest => by
    by_cases h : k0 = k <;> simp [lookupKey, h, lookupKey_map_snd k f rest]

/-- Every value produced by the service-data encoder is a variant wrapping a
byte sequence. -/
theorem all_variantBytes :
    ∀ l : List (String × List Nat),
      ((l.map fun p =>
          (p.1, WireVal.variant (WireVal.bytes p.2))).all fun p =>
            isVariantBytes p.2) = true
  | [] => rfl
  | p0 :: rest => by
    have ih := all_variantBytes rest
    simp only [List.map_cons, List.all_cons, ih, Bool.and_true]
    rfl

/-- C1: `Advertisement::register` — when the remote `RegisterAdvertisement`
call succeeds the call returns ok and `is_advertising` subsequently reads
true; when the remote call fails its error is returned unchanged, the state
is left exactly as it was, and the trace contains no store to the flag. -/
theorem register_success_and_failure (a : Advertisement) (e : String) :
    (a.register none).2.1 = Except.ok () ∧
    (a.register none).2.2.is_advertising = true ∧
    (a.register (some e)).2.1 = Except.error e ∧
    (a.register (some e)).2.2 = a ∧
    (a.register (some e)).1.filter isStoreFlag = [] :=
  ⟨rfl, rfl, rfl, rfl, rfl⟩

/-- C2: `Advertisement::unregister` — the trace is exactly a store of false
followed by the awaited `UnregisterAdvertisement` call, so the prefix of the
trace strictly before the await already leaves `is_advertising` false; the
remote error, if any, is still propagated unchanged, and the final flag reads
false in both outcomes. -/
theorem unregister_optimistic_clear (a : Advertisement) (e : String) :
    (a.unregister (some e)).1 =
      [Event.storeFlag false,
       Event.awaitCall "UnregisterAdvertisement" a.object_path none (some e)] ∧
    (a.unregister none).1 =
      [Event.storeFlag false,
       Event.awaitCall "UnregisterAdvertisement" a.object_path none none] ∧
    (applyTrace a ((a.unregister (some e)).1.take 1)).is_advertising = false ∧
    (applyTrace a ((a.unregister none).1.take 1)).is_advertising = false ∧
    (a.unregister (some e)).2.1 = Except.error e ∧
    (a.unregister (some e)).2.2.is_advertising = false ∧
    (a.unregister none).2.1 = Except.ok () ∧
    (a.unregister none).2.2.is_advertising = false :=
  ⟨rfl, rfl, rfl, rfl, rfl, rfl, rfl, rfl⟩

/-- C3: the inbound `Release` handler — for every current state it stores
false into the flag and replies success immediately; name, uuids,
service data and object path are untouched; and the registered method takes
no arguments and returns no value. -/
theorem release_clears_flag_and_replies (a : Advertisement) :
    a.release =
      ([Event.storeFlag false, Event.replyOk],
       { a with is_advertising := false }) ∧
    (a.release).2.name = a.name ∧
    (a.release).2.uuids = a.uuids ∧
    (a.release).2.service_data = a.service_data ∧
    (a.release).2.object_path = a.object_path ∧
    advertisementMethods = [⟨"Release", [], []⟩] :=
  ⟨rfl, rfl, rfl, rfl, rfl, rfl⟩

/-- C4: the four property getters never fail — `Type` is the constant
"peripheral", and `LocalName`, `ServiceUUIDs`, `ServiceData` return the
stored value when present and the type-appropriate empty default (empty
string, empty list, empty map) when the backing cell is absent. -/
theorem property_getters_total (a : Advertisement) (n : String)
    (u : List String) (sd : ServiceData) :
    getType a = Except.ok "peripheral" ∧
    getLocalName { a with name := none } = Except.ok "" ∧
    getLocalName { a with name := some n } = Except.ok n ∧
    getServiceUUIDs { a with uuids := none } = Except.ok [] ∧
    getServiceUUIDs { a with uuids := some u } = Except.ok u ∧
    getServiceData { a with service_data := none } = Except.ok ServiceData.new ∧
    getServiceData { a with service_data := some sd } = Except.ok sd ∧
    ServiceData.new.entries = [] :=
  ⟨rfl, rfl, rfl, rfl, rfl, rfl, rfl, rfl⟩

/-- C5: the only flag stores across the whole operation set are register on
success (true), unregister (false) and Release (false); `add_name`,
`add_uuids`, `add_service_data` and the `is_advertising` read never store
into the flag, and a failed register stores nothing. -/
theorem flag_transitions_exhaustive (a : Advertisement) (n e k : String)
    (u : List String) (v : List Nat) :
    (a.add_name n).1.filter isStoreFlag = [] ∧
    (a.add_name n).2.is_advertising = a.is_advertising ∧
    (a.add_uuids u).1.filter isStoreFlag = [] ∧
    (a.add_uuids u).2.is_advertising = a.is_advertising ∧
    (a.add_service_data k v).1.filter isStoreFlag = [] ∧
    (a.add_service_data k v).2.is_advertising = a.is_advertising ∧
    a.is_advertising_call = ([], a.is_advertising) ∧
    (a.register none).1.filter isStoreFlag = [Event.storeFlag true] ∧
    (a.register (some e)).1.filter isStoreFlag = [] ∧
    (a.unregister none).1.filter isStoreFlag = [Event.storeFlag false] ∧
    (a.unregister (some e)).1.filter isStoreFlag = [Event.storeFlag false] ∧
    (a.release).1.filter isStoreFlag = [Event.storeFlag false] :=
  ⟨rfl, rfl, rfl, rfl, rfl, rfl, rfl, rfl, rfl, rfl, rfl, rfl⟩

/-- C6: last write wins — two `add_service_data` calls with the same key
leave exactly one entry for that key holding the second payload (given the
HashMap per-key uniqueness of the starting map), and two `add_name` or
`add_uuids` calls leave the second value. -/
theorem add_service_data_overwrites (a : Advertisement) (k : String)
    (p1 p2 : List Nat) (n1 n2 : String) (u1 u2 : List String)
    (h : countKey k ((a.service_data.getD ServiceData.new).entries) ≤ 1) :
    countKey k
      ((((a.add_service_data k p1).2).add_service_data k p2).2.service_data.getD
        ServiceData.new).entries = 1 ∧
    lookupKey k
      ((((a.add_service_data k p1).2).add_service_data k p2).2.service_data.getD
        ServiceData.new).entries = some p2 ∧
    ((a.add_name n1).2.add_name n2).2.name = some n2 ∧
    ((a.add_uuids u1).2.add_uuids u2).2.uuids = some u2 := by
  have hent :
      ((((a.add_service_data k p1).2).add_service_data k p2).2.service_data.getD
          ServiceData.new).entries
        = insertAssoc
            (insertAssoc ((a.service_data.getD ServiceData.new).entries) k p1)
            k p2 := rfl
  refine ⟨?_, ?_, rfl, rfl⟩
  · rw [hent]
    exact countKey_insertAssoc k p2 _ (le_of_eq (countKey_insertAssoc k p1 _ h))
  · rw [hent]
    exact lookupKey_insertAssoc k p2 _

/-- C6 witness: the overwrite property evaluated at a concrete
advertisement, key and payloads. -/
theorem add_service_data_overwrites_witness :
    countKey "180d"
      ((((advSample.add_service_data "180d" [1]).2).add_service_data "180d"
          [2, 3]).2.service_data.getD ServiceData.new).entries = 1 ∧
    lookupKey "180d"
      ((((advSample.add_service_data "180d" [1]).2).add_service_data "180d"
          [2, 3]).2.service_data.getD ServiceData.new).entries = some [2, 3] ∧
    ((advSample.add_name "x").2.add_name "y").2.name = some "y" ∧
    ((advSample.add_uuids ["a"]).2.add_uuids ["b", "c"]).2.uuids =
      some ["b", "c"] :=
  add_service_data_overwrites advSample "180d" [1] [2, 3] "x" "y" ["a"]
    ["b", "c"] (by decide)

/-- C7: the wire encoding of `ServiceData` — the declared signature is the
string a\x7bsv\x7d, every encoded value is a single variant wrapping a byte
sequence, per-key entry counts are preserved (so a key occurring once yields
exactly one encoded entry), and the encoded value at a key is the variant
wrapping the stored byte sequence. -/
theorem service_data_encoding (m : ServiceData) (k : String)
    (h : countKey k m.entries = 1) :
    serviceDataSignature = "a\x7bsv\x7d" ∧
    countKey k (encodeServiceData m) = 1 ∧
    ((encodeServiceData m).all fun p => isVariantBytes p.2) = true ∧
    lookupKey k (encodeServiceData m) =
      (lookupKey k m.entries).map fun bs =>
        WireVal.variant (WireVal.bytes bs) := by
  refine ⟨rfl, ?_, ?_, ?_⟩
  · have hc := countKey_map_snd k
      (fun bs => WireVal.variant (WireVal.bytes bs)) m.entries
    exact hc.trans h
  · exact all_variantBytes m.entries
  · exact lookupKey_map_snd k
      (fun bs => WireVal.variant (WireVal.bytes bs)) m.entries

/-- C7 witness: the encoding property evaluated at a concrete one-entry
map. -/
theorem service_data_encoding_witness :
    serviceDataSignature = "a\x7bsv\x7d" ∧
    countKey "180d" (encodeServiceData sdSample) = 1 ∧
    ((encodeServiceData sdSample).all fun p => isVariantBytes p.2) = true ∧
    lookupKey "180d" (encodeServiceData sdSample) =
      (lookupKey "180d" sdSample.entries).map fun bs =>
        WireVal.variant (WireVal.bytes bs) :=
  service_data_encoding sdSample "180d" (by decide)

/-- C8: the advertisement object path is the base path followed by the
literal "/advertisement0000" (the slot index being the constant 0), and the
application root object path is the bare base path. -/
theorem object_paths_fixed (base adapter : String) :
    advertisementObjectPath base = base ++ "/advertisement0000" ∧
    (Advertisement.new base).object_path = base ++ "/advertisement0000" ∧
    applicationObjectPath base = base ∧
    (Application.new base adapter).object_path = base ∧
    ADVERTISEMENT_SLOT = 0 := by
  have hpad : padZeros4 ADVERTISEMENT_SLOT = "0000" := by decide
  have h1 : advertisementObjectPath base = base ++ "/advertisement0000" := by
    unfold advertisementObjectPath
    rw [hpad, stringAppendAssoc]
    congr 1
  exact ⟨h1, h1, rfl, rfl, rfl⟩

/-- C9: `Application::register` issues `RegisterApplication` with the root
path and an empty options mapping and returns the raw reply (or the remote
error) unchanged; `unregister` issues `UnregisterApplication` with the root
path only and discards the reply; both leave the application state untouched
and store nothing into any flag. -/
theorem application_register_unregister (app : Application) (msg : Message)
    (e : String) :
    app.register (Except.ok msg) =
      ([Event.awaitCall "RegisterApplication" app.object_path (some []) none],
       Except.ok msg, app) ∧
    app.register (Except.error e) =
      ([Event.awaitCall "RegisterApplication" app.object_path (some [])
          (some e)],
       Except.error e, app) ∧
    app.unregister (Except.ok msg) =
      ([Event.awaitCall "UnregisterApplication" app.object_path none none],
       Except.ok (), app) ∧
    app.unregister (Except.error e) =
      ([Event.awaitCall "UnregisterApplication" app.object_path none (some e)],
       Except.error e, app) ∧
    (app.register (Except.ok msg)).1.filter isStoreFlag = [] ∧
    (app.unregister (Except.ok msg)).1.filter isStoreFlag = [] ∧
    (app.register (Except.error e)).1.filter isStoreFlag = [] ∧
    (app.unregister (Except.error e)).1.filter isStoreFlag = [] :=
  ⟨rfl, rfl, rfl, rfl, rfl, rfl, rfl, rfl⟩

/-- C10: the `Release` handler is idempotent and total — invoked on a state
whose flag is already false it still replies success and leaves the flag
false, and releasing twice yields exactly the state and reply of releasing
once. -/
theorem release_idempotent (a : Advertisement) :
    ({ a with is_advertising := false } : Advertisement).release =
      ([Event.storeFlag false, Event.replyOk],
       { a with is_advertising := false }) ∧
    ((a.release).2.release).2 = (a.release).2 ∧
    ((a.release).2.release).1 = (a.release).1 ∧
    (a.release).1 = [Event.storeFlag false, Event.replyOk] :=
  ⟨rfl, rfl, rfl, rfl⟩
